import Mathlib

/-!
# Verification of the Tomasulo simulator engine

Shallow embedding of the dynamic-scheduling core of the Tomasulo simulator
(`src/lib/simulator-engine.ts` and `src/lib/tomasulo/*`).  TypeScript objects
are Lean structures, JS `Map`s are association lists with JS `Map` update
semantics (in-place overwrite, append-on-miss), JS numbers holding register
and memory values are `Int`, counters and indices are `Nat`.  Each engine
function is translated statement-for-statement from its source file.
-/

namespace Tomasulo

/-- JS `Map.get`: first binding for the key, if any. -/
def jsMapGet {κ α : Type} [BEq κ] (m : List (κ × α)) (k : κ) : Option α :=
  (m.find? (fun p => p.1 == k)).map (·.2)

/-- JS `Map.set`: overwrite the existing binding in place, else append. -/
def jsMapSet {κ α : Type} [BEq κ] (m : List (κ × α)) (k : κ) (v : α) :
    List (κ × α) :=
  if m.any (fun p => p.1 == k) then
    m.map (fun p => if p.1 == k then (k, v) else p)
  else
    m ++ [(k, v)]

/-- JS `a || b` on numbers: `a` unless it is falsy (`0`). -/
def jsOr (a b : Int) : Int := if a = 0 then b else a

/-- `InstructionState` from `types/simulator.ts`. -/
inductive InstrState
  | idle | issued | executing | ready | writeback | committed | flushed
  | speculative
  deriving DecidableEq, Repr

/-- `OperationType` from `types/simulator.ts`. -/
inductive OpType
  | ADD | SUB | MUL | DIV | LOAD | STORE | BEQ | BNE
  deriving DecidableEq, Repr

/-- Reservation-station / functional-unit class (`"ADD" | "MUL" | "LOAD" | "STORE"`). -/
inductive RSType
  | ADD | MUL | LOAD | STORE
  deriving DecidableEq, Repr

/-- ROB entry kind (`"ALU" | "LOAD" | "STORE" | "BRANCH"`). -/
inductive ROBType
  | ALU | LOAD | STORE | BRANCH
  deriving DecidableEq, Repr

/-- `Instruction` from `types/simulator.ts`. -/
structure Instruction where
  id : Nat
  text : String
  operation : OpType
  dest : String
  src1 : String
  src2 : String
  immediate : Option Int := none
  state : InstrState
  issueTime : Option Nat := none
  execStartTime : Option Nat := none
  execEndTime : Option Nat := none
  writebackTime : Option Nat := none
  commitTime : Option Nat := none
  isSpeculative : Bool
  robEntry : Option Nat := none
  deriving DecidableEq, Repr

/-- `ReservationStation` from `types/simulator.ts`.  `Qj`/`Qk`/`dest` hold the
textual ROB tags (`"ROB3"`) exactly as the source stores them. -/
structure ReservationStation where
  name : String
  rsType : RSType
  busy : Bool
  op : Option OpType := none
  vj : Option Int := none
  vk : Option Int := none
  qj : Option String := none
  qk : Option String := none
  dest : Option String := none
  address : Option Int := none
  instructionId : Option Nat := none
  deriving DecidableEq, Repr

/-- `FunctionalUnit` from `types/simulator.ts`. -/
structure FunctionalUnit where
  name : String
  fuType : RSType
  busy : Bool
  instructionId : Option Nat := none
  cyclesRemaining : Nat
  totalCycles : Nat
  result : Option Int := none
  operation : Option OpType := none
  vj : Option Int := none
  vk : Option Int := none
  address : Option Int := none
  deriving DecidableEq, Repr

/-- `ROBEntry` from `types/simulator.ts`. -/
structure ROBEntry where
  index : Nat
  busy : Bool
  instructionId : Option Nat := none
  typ : Option ROBType := none
  destination : Option String := none
  value : Option Int := none
  ready : Bool
  isSpeculative : Bool
  branchCheckpointId : Option Nat := none
  address : Option Int := none
  deriving DecidableEq, Repr

/-- `RegisterRenaming` (one RAT entry) from `types/simulator.ts`. -/
structure RegisterRenaming where
  register : String
  robEntry : Option Nat := none
  value : Option Int := none
  deriving DecidableEq, Repr

/-- `BranchPrediction` from `types/simulator.ts` (display-only list in state). -/
structure BranchPrediction where
  instructionId : Nat
  pc : Int
  predicted : Bool
  actual : Option Bool := none
  resolved : Bool
  deriving DecidableEq, Repr

/-- Predictor flavour (`'static-taken' | 'static-not-taken' | '2-bit'`). -/
inductive PredictorType
  | staticTaken | staticNotTaken | twoBit
  deriving DecidableEq, Repr

/-- `BranchPredictor`: 2-bit saturating counters per PC.  The counter state is
a `Nat` in `0..3` (`0`=SNT, `1`=WNT, `2`=WT, `3`=ST). -/
structure BranchPredictor where
  ptype : PredictorType
  table : List (Int × Nat) := []
  deriving DecidableEq, Repr

/-- `BranchCheckpoint` from `types/simulator.ts`. -/
structure BranchCheckpoint where
  id : Nat
  instructionId : Nat
  pc : Int
  ratSnapshot : List RegisterRenaming
  robTailSnapshot : Nat
  predictedTaken : Bool
  predictedTarget : Int
  resolved : Bool
  correct : Option Bool := none
  deriving DecidableEq, Repr

/-- `CDBBroadcast` from `types/simulator.ts`. -/
structure CDBBroadcast where
  robTag : Nat
  value : Int
  instructionId : Nat
  deriving DecidableEq, Repr

/-- `SimulatorState` from `types/simulator.ts`. -/
structure SimulatorState where
  instructions : List Instruction
  reservationStations : List ReservationStation
  functionalUnits : List FunctionalUnit
  rob : List ROBEntry
  robHead : Nat
  robTail : Nat
  registerFile : List (String × Int)
  registerRenaming : List RegisterRenaming
  memory : List (Int × Int)
  cycle : Nat
  instructionsCommitted : Nat
  branchPredictions : List BranchPrediction
  speculationEnabled : Bool
  isPaused : Bool
  pendingBroadcasts : List CDBBroadcast
  branchCheckpoints : List BranchCheckpoint
  nextCheckpointId : Nat
  pc : Int
  branchPredictor : BranchPredictor
  branchesExecuted : Nat
  branchCorrect : Nat
  mispredictionCount : Nat
  flushCount : Nat
  issueStalls : Nat
  dataHazardStalls : Nat
  structuralHazardStalls : Nat
  cyclesWithAnyStall : Nat
  deriving DecidableEq, Repr

/-- `PredictionResult` from `branch-predictor.ts`. -/
structure PredictionResult where
  taken : Bool
  target : Int
  deriving DecidableEq, Repr

/-- `predict2Bit` (`branch-predictor.ts`): entry defaults to Weakly-Not-Taken
(state 1); predict taken iff the counter state is `>= 2`. -/
def predict2Bit (pc : Int) (predictor : BranchPredictor) (fallthrough : Int) :
    PredictionResult :=
  let st := (jsMapGet predictor.table pc).getD 1
  let taken := decide (2 ≤ st)
  { taken, target := if taken then 0 else fallthrough }

/-- `predictBranch` (`branch-predictor.ts`). -/
def predictBranch (pc : Int) (predictor : BranchPredictor) (fallthrough : Int) :
    PredictionResult :=
  match predictor.ptype with
  | .staticTaken => { taken := true, target := 0 }
  | .staticNotTaken => { taken := false, target := fallthrough }
  | .twoBit => predict2Bit pc predictor fallthrough

/-- `updatePredictor` (`branch-predictor.ts`), as a pure table update: the
source mutates the predictor in place; here the updated predictor is
returned.  Saturating increment to 3 on taken, decrement to 0 on not-taken;
no-op for static predictors. -/
def updatePredictor (pc : Int) (actualTaken : Bool)
    (predictor : BranchPredictor) : BranchPredictor :=
  if predictor.ptype ≠ .twoBit then predictor
  else
    let st := (jsMapGet predictor.table pc).getD 1
    let st' := if actualTaken then min 3 (st + 1) else st - 1
    { predictor with table := jsMapSet predictor.table pc st' }

/-- `calculateAddress` (`memory.ts`): direct addressing for an empty base,
otherwise committed-register-file base value (default 0) plus offset. -/
def calculateAddress (base : String) (offset : Int) (state : SimulatorState) :
    Int :=
  if base = "" then offset
  else (jsMapGet state.registerFile base).getD 0 + offset

/-- `loadFromMemory` (`memory.ts`): value at the address, 0 if uninitialised. -/
def loadFromMemory (address : Int) (state : SimulatorState) : Int :=
  (jsMapGet state.memory address).getD 0

/-- `storeToMemory` (`memory.ts`). -/
def storeToMemory (address value : Int) (state : SimulatorState) :
    SimulatorState :=
  { state with memory := jsMapSet state.memory address value }

/-- `updateRAT` (`rat.ts`). -/
def updateRAT (rat : List RegisterRenaming) (register : String) (robTag : Nat) :
    List RegisterRenaming :=
  if rat.any (fun e => e.register == register) then
    rat.map (fun e =>
      if e.register == register then
        { register, robEntry := some robTag, value := none }
      else e)
  else
    rat ++ [{ register, robEntry := some robTag, value := none }]

/-- `clearRAT` (`rat.ts`). -/
def clearRAT (rat : List RegisterRenaming) (register : String) :
    List RegisterRenaming :=
  rat.filter (fun e => ¬ (e.register == register))

/-- `clearRATIfMatches` (`rat.ts`). -/
def clearRATIfMatches (rat : List RegisterRenaming) (register : String)
    (robTag : Nat) : List RegisterRenaming :=
  match rat.find? (fun e => e.register == register) with
  | some e => if e.robEntry = some robTag then clearRAT rat register else rat
  | none => rat

/-- `snapshotRAT` (`rat.ts`): a deep copy, which on pure data is the identity. -/
def snapshotRAT (rat : List RegisterRenaming) : List RegisterRenaming := rat

/-- `restoreRAT` (`rat.ts`): a deep copy, which on pure data is the identity. -/
def restoreRAT (snapshot : List RegisterRenaming) : List RegisterRenaming :=
  snapshot

/-- `createCheckpoint` (`checkpoint.ts`). -/
def createCheckpoint (instructionId : Nat) (pc : Int)
    (prediction : PredictionResult) (target : Int) (state : SimulatorState) :
    BranchCheckpoint :=
  { id := state.nextCheckpointId
    instructionId
    pc
    ratSnapshot := snapshotRAT state.registerRenaming
    robTailSnapshot := state.robTail
    predictedTaken := prediction.taken
    predictedTarget := target
    resolved := false
    correct := none }

/-- `findCheckpoint` (`checkpoint.ts`): lookup by branch instruction id. -/
def findCheckpoint (instructionId : Nat) (state : SimulatorState) :
    Option BranchCheckpoint :=
  state.branchCheckpoints.find? (fun cp => cp.instructionId == instructionId)

/-- `removeCheckpoint` (`checkpoint.ts`). -/
def removeCheckpoint (checkpointId : Nat) (state : SimulatorState) :
    SimulatorState :=
  { state with
    branchCheckpoints :=
      state.branchCheckpoints.filter (fun cp => ¬ (cp.id == checkpointId)) }

/-- `resolveCheckpoint` (`checkpoint.ts`). -/
def resolveCheckpoint (checkpointId : Nat) (correct : Bool)
    (state : SimulatorState) : SimulatorState :=
  { state with
    branchCheckpoints := state.branchCheckpoints.map (fun cp =>
      if cp.id == checkpointId then
        { cp with resolved := true, correct := some correct }
      else cp) }

/-- `hasUnresolvedCheckpoints` (`checkpoint.ts`). -/
def hasUnresolvedCheckpoints (state : SimulatorState) : Bool :=
  state.branchCheckpoints.any (fun cp => ¬ cp.resolved)

/-- `findFreeReservationStation` (`state-manager.ts`). -/
def findFreeReservationStation (t : RSType) (state : SimulatorState) :
    Option Nat :=
  state.reservationStations.findIdx? (fun rs => rs.rsType == t && ¬ rs.busy)

/-- `findFreeROBEntry` (`state-manager.ts`): the tail slot, unless advancing
the tail would hit a busy head. -/
def findFreeROBEntry (state : SimulatorState) : Option Nat :=
  let nextTail := (state.robTail + 1) % state.rob.length
  if nextTail = state.robHead ∧
      (((state.rob.get? state.robHead).map (·.busy)).getD false) = true then
    none
  else
    some state.robTail

/-- `findFreeFunctionalUnit` (`state-manager.ts`). -/
def findFreeFunctionalUnit (t : RSType) (state : SimulatorState) :
    Option Nat :=
  state.functionalUnits.findIdx? (fun fu => fu.fuType == t && ¬ fu.busy)

/-- Return value of `getRegisterValue` (`state-manager.ts`). -/
structure RegValue where
  value : Option Int := none
  robTag : Option Nat := none
  deriving DecidableEq, Repr

/-- `getRegisterValue` (`state-manager.ts`): RAT-resolved operand value or a
pending ROB tag. -/
def getRegisterValue (reg : String) (state : SimulatorState) : RegValue :=
  if reg = "" then { value := some 0 }
  else
    match state.registerRenaming.find? (fun r => r.register == reg) with
    | some ratEntry =>
      match ratEntry.robEntry with
      | some tag =>
        match state.rob.get? tag with
        | some robEntry =>
          if robEntry.ready ∧ robEntry.value.isSome then
            { value := robEntry.value }
          else
            { robTag := some tag }
        | none => { robTag := some tag }
      | none => { value := some ((jsMapGet state.registerFile reg).getD 0) }
    | none => { value := some ((jsMapGet state.registerFile reg).getD 0) }

/-- `isROBFull` (`state-manager.ts`). -/
def isROBFull (state : SimulatorState) : Bool :=
  let nextTail := (state.robTail + 1) % state.rob.length
  nextTail == state.robHead &&
    (((state.rob.get? state.robHead).map (·.busy)).getD false)

/-- `getReservationStationType` (`state-manager.ts`). -/
def getReservationStationType (operation : OpType) : RSType :=
  match operation with
  | .ADD | .SUB | .BEQ | .BNE => .ADD
  | .MUL | .DIV => .MUL
  | .LOAD => .LOAD
  | .STORE => .STORE

/-- `canIssue` (`state-manager.ts`). -/
def canIssue (instructionId : Nat) (state : SimulatorState) : Bool :=
  match state.instructions.get? instructionId with
  | none => false
  | some instruction =>
    if instruction.state ≠ .idle then false
    else if isROBFull state then false
    else
      (findFreeReservationStation
        (getReservationStationType instruction.operation) state).isSome

/-- Modify the element at index `i` in place, if present. -/
def listModify {α : Type} (l : List α) (i : Nat) (f : α → α) : List α :=
  match l.get? i with
  | some x => l.set i (f x)
  | none => l

/-- Per-opcode latencies (`LATENCIES` in `execute-cycle.ts`). -/
def latencyOf (op : OpType) : Nat :=
  match op with
  | .ADD => 2
  | .SUB => 2
  | .MUL => 4
  | .DIV => 8
  | .LOAD => 3
  | .STORE => 3
  | .BEQ => 1
  | .BNE => 1

/-- `computeResult` (`execute-cycle.ts`): result from the FU's captured
operands.  `DIV` is guarded against a zero divisor; `Math.floor(vj / vk)` on
integers is flooring division (`Int.fdiv`). -/
def computeResult (fu : FunctionalUnit) (state : SimulatorState) : Int :=
  let vj := fu.vj.getD 0
  let vk := fu.vk.getD 0
  match fu.operation with
  | some .ADD => vj + vk
  | some .SUB => vj - vk
  | some .MUL => vj * vk
  | some .DIV => if vk ≠ 0 then Int.fdiv vj vk else 0
  | some .LOAD => loadFromMemory (fu.address.getD 0) state
  | some .STORE => vj
  | some .BEQ | some .BNE => if vj = vk then 1 else 0
  | none => 0

/-- Accumulator for the dispatch loop of `dispatchToFunctionalUnits`. -/
structure DispatchAcc where
  rss : List ReservationStation
  fus : List FunctionalUnit
  instrs : List Instruction
  dataHazard : Bool
  structuralHazard : Bool

/-- One iteration of the `for` loop in `dispatchToFunctionalUnits`
(`execute-cycle.ts`), acting on station `rsIndex`. -/
def dispatchStep (cycle : Nat) (acc : DispatchAcc) (rsIndex : Nat) :
    DispatchAcc :=
  match acc.rss.get? rsIndex with
  | none => acc
  | some rs =>
    if ¬ rs.busy then acc
    else match rs.instructionId with
    | none => acc
    | some iid =>
      match acc.instrs.get? iid with
      | none => acc
      | some instruction =>
        if instruction.state ≠ .issued then acc
        else if ¬ (rs.qj = none ∧ rs.qk = none) then
          { acc with dataHazard := true }
        else if acc.fus.any (fun fu => fu.instructionId == some iid) then acc
        else
          match acc.fus.findIdx? (fun fu => fu.fuType == rs.rsType && ¬ fu.busy)
            with
          | none => { acc with structuralHazard := true }
          | some fuIndex =>
            -- the source reads `LATENCIES[rs.op!]`: a busy station carries
            -- its op, asserted non-null
            match rs.op with
            | none => acc
            | some op =>
              let latency := latencyOf op
              { acc with
                fus := listModify acc.fus fuIndex (fun fu =>
                  { fu with
                    busy := true
                    instructionId := some iid
                    cyclesRemaining := latency
                    totalCycles := latency
                    result := none
                    operation := rs.op
                    vj := rs.vj
                    vk := rs.vk
                    address := rs.address })
                instrs := acc.instrs.set iid
                  { instruction with
                    state := .executing
                    execStartTime := some cycle }
                rss := acc.rss.set rsIndex
                  { name := rs.name, rsType := rs.rsType, busy := false } }

/-- Result record for `dispatchToFunctionalUnits` / `executeCycle`. -/
structure ExecuteResult where
  state : SimulatorState
  dataHazardOccurred : Bool
  structuralHazardOccurred : Bool

/-- `dispatchToFunctionalUnits` (`execute-cycle.ts`): scan every station in
order, dispatching ready ones to free functional units. -/
def dispatchToFunctionalUnits (state : SimulatorState) : ExecuteResult :=
  let acc := (List.range state.reservationStations.length).foldl
    (dispatchStep state.cycle)
    { rss := state.reservationStations
      fus := state.functionalUnits
      instrs := state.instructions
      dataHazard := false
      structuralHazard := false }
  { state :=
      { state with
        reservationStations := acc.rss
        functionalUnits := acc.fus
        instructions := acc.instrs }
    dataHazardOccurred := acc.dataHazard
    structuralHazardOccurred := acc.structuralHazard }

/-- Accumulator for the countdown loop of `updateFunctionalUnits`. -/
structure CountdownAcc where
  st : SimulatorState
  fus : List FunctionalUnit
  instrs : List Instruction

/-- One iteration of the `for` loop in `updateFunctionalUnits`
(`execute-cycle.ts`): decrement a busy unit and complete it when the
pre-decrement counter is 1.  `origState` is the outer `state` argument, used
by `computeResult` and the completion timestamps exactly as in the source. -/
def countdownStep (origState : SimulatorState) (acc : CountdownAcc)
    (fuIndex : Nat) : CountdownAcc :=
  match acc.fus.get? fuIndex with
  | none => acc
  | some fu =>
    if ¬ fu.busy then acc
    else match fu.instructionId with
    | none => acc
    | some iid =>
      match acc.instrs.get? iid with
      | none => acc
      | some instruction =>
        if fu.cyclesRemaining = 0 then acc
        else
          let fus1 := acc.fus.set fuIndex
            { fu with cyclesRemaining := fu.cyclesRemaining - 1 }
          if fu.cyclesRemaining ≠ 1 then { acc with fus := fus1 }
          else
            let result := computeResult fu origState
            let fus2 := listModify fus1 fuIndex
              (fun f => { f with result := some result })
            let instrs2 := acc.instrs.set iid
              { instruction with
                state := .ready
                execEndTime := some origState.cycle }
            let st2 :=
              if instruction.operation = .BEQ ∨ instruction.operation = .BNE
              then
                match findCheckpoint instruction.id acc.st with
                | some checkpoint =>
                  if ¬ checkpoint.resolved then
                    let vj := fu.vj.getD 0
                    let vk := fu.vk.getD 0
                    let actualTaken :=
                      if instruction.operation = .BEQ then vj = vk else vj ≠ vk
                    let branchTarget :=
                      checkpoint.pc + (instruction.immediate.getD 1)
                    let fallthrough := checkpoint.pc + 1
                    let actualTarget :=
                      if actualTaken then branchTarget else fallthrough
                    let predictionCorrect :=
                      checkpoint.predictedTaken = actualTaken ∧
                        checkpoint.predictedTarget = actualTarget
                    resolveCheckpoint checkpoint.id
                      (decide predictionCorrect) acc.st
                  else acc.st
                | none => acc.st
              else acc.st
            { st := st2, fus := fus2, instrs := instrs2 }

/-- `updateFunctionalUnits` (`execute-cycle.ts`). -/
def updateFunctionalUnits (state : SimulatorState) : SimulatorState :=
  let acc := (List.range state.functionalUnits.length).foldl
    (countdownStep state)
    { st := state
      fus := state.functionalUnits
      instrs := state.instructions }
  { acc.st with functionalUnits := acc.fus, instructions := acc.instrs }

/-- `executeCycle` (`execute-cycle.ts`): dispatch, then countdown. -/
def executeCycle (state : SimulatorState) : ExecuteResult :=
  let dispatchResult := dispatchToFunctionalUnits state
  { state := updateFunctionalUnits dispatchResult.state
    dataHazardOccurred := dispatchResult.dataHazardOccurred
    structuralHazardOccurred := dispatchResult.structuralHazardOccurred }

/-- One eligible broadcast found on a functional unit (`cdb.ts`). -/
structure ReadyBroadcast where
  fuIndex : Nat
  broadcast : CDBBroadcast
  deriving DecidableEq, Repr

/-- Modelled from the spec: `collectReadyBroadcasts`, imported by
`writeback-cycle.ts` from `./cdb`, is not among the available sources.  Per
the spec, Writeback "collect[s] every FU holding a computed, not-yet-broadcast
result into the pending-broadcast queue".  Eligibility follows the per-unit
test of `selectForBroadcast` in `cdb.ts` (busy, countdown finished, result
computed, bound instruction in `ready` state with an assigned ROB entry),
scanning the units in order. -/
def collectReadyBroadcasts (state : SimulatorState) : List ReadyBroadcast :=
  (List.range state.functionalUnits.length).filterMap (fun i =>
    match state.functionalUnits.get? i with
    | none => none
    | some fu =>
      if fu.busy ∧ fu.cyclesRemaining = 0 ∧ fu.result.isSome ∧
          fu.instructionId.isSome then
        match fu.instructionId, fu.result with
        | some iid, some result =>
          match state.instructions.get? iid with
          | some instruction =>
            if instruction.state = .ready ∧ instruction.robEntry.isSome then
              match instruction.robEntry with
              | some robTag =>
                some { fuIndex := i
                       broadcast :=
                         { robTag, value := result, instructionId := iid } }
              | none => none
            else none
          | none => none
        | _, _ => none
      else none)

/-- `Array.prototype.map` with the element index, starting at `start`. -/
def mapWithIndex {α : Type} (f : Nat → α → α) : Nat → List α → List α
  | _, [] => []
  | start, x :: xs => f start x :: mapWithIndex f (start + 1) xs

/-- `broadcast` (`cdb.ts`): write the value into the tagged ROB entry and wake
every station waiting on the textual tag `ROB<robTag>`. -/
def broadcast (bd : CDBBroadcast) (state : SimulatorState) : SimulatorState :=
  let newRob := mapWithIndex (fun idx entry =>
    if idx = bd.robTag then
      { entry with value := some bd.value, ready := true }
    else entry) 0 state.rob
  let newReservationStations := state.reservationStations.map (fun rs =>
    let rs1 :=
      if rs.qj = some ("ROB" ++ toString bd.robTag) then
        { rs with vj := some bd.value, qj := none }
      else rs
    if rs1.qk = some ("ROB" ++ toString bd.robTag) then
      { rs1 with vk := some bd.value, qk := none }
    else rs1)
  { state with rob := newRob, reservationStations := newReservationStations }

/-- The queue built at the top of `writeBackCycle` (`writeback-cycle.ts`):
the pending queue followed by every newly collected broadcast whose
instruction is not already queued. -/
def writeBackQueue (state : SimulatorState) : List CDBBroadcast :=
  let readyBroadcasts := collectReadyBroadcasts state
  let queuedInstructions := state.pendingBroadcasts.map (·.instructionId)
  state.pendingBroadcasts ++
    (readyBroadcasts.filter
      (fun r => ¬ queuedInstructions.contains r.broadcast.instructionId)).map
      (·.broadcast)

/-- `writeBackCycle` (`writeback-cycle.ts`): queue every newly ready unit
(idempotently), pop one FIFO entry, broadcast it, free its unit and mark the
instruction `writeback`. -/
def writeBackCycle (state : SimulatorState) : SimulatorState :=
  match writeBackQueue state with
  | [] => { state with pendingBroadcasts := [] }
  | broadcastData :: restQueue =>
    let fuIndex? := state.functionalUnits.findIdx?
      (fun fu => fu.instructionId == some broadcastData.instructionId)
    let newState := broadcast broadcastData state
    let newFunctionalUnits :=
      match fuIndex? with
      | some fuIndex =>
        listModify newState.functionalUnits fuIndex (fun fu =>
          { name := fu.name, fuType := fu.fuType, busy := false
            cyclesRemaining := 0, totalCycles := 0 })
      | none => newState.functionalUnits
    let newInstructions := newState.instructions.map (fun inst =>
      if inst.id == broadcastData.instructionId then
        { inst with
          state := .writeback
          writebackTime := some newState.cycle }
      else inst)
    { newState with
      functionalUnits := newFunctionalUnits
      instructions := newInstructions
      pendingBroadcasts := restQueue }

/-- A freshly cleared ROB entry, as written by the flush and commit loops. -/
def clearedROBEntry (i : Nat) : ROBEntry :=
  { index := i, busy := false, ready := false, isSpeculative := false }

/-- The `while (currentIndex !== state.robTail)` loop of
`flushSpeculativeState`: clear `count` ring entries starting at `start`.
With `start` and the tail both below `size`, the loop runs exactly
`(tail + size - start) % size` iterations. -/
def clearROBRange (rob : List ROBEntry) (start count size : Nat) :
    List ROBEntry :=
  match count with
  | 0 => rob
  | c + 1 =>
    clearROBRange (rob.set start (clearedROBEntry start)) ((start + 1) % size)
      c size

/-- `flushSpeculativeState` (`flush.ts`): restore the RAT snapshot, reset the
ROB tail and clear the discarded ring segment, cancel stations and units bound
to speculative instructions, mark the speculative instructions after the
branch `flushed`, and count the flush. -/
def flushSpeculativeState (checkpoint : BranchCheckpoint)
    (state : SimulatorState) : SimulatorState :=
  let robSize := state.rob.length
  let count := (state.robTail + robSize - checkpoint.robTailSnapshot) % robSize
  let newRob := clearROBRange state.rob checkpoint.robTailSnapshot count robSize
  let newReservationStations := state.reservationStations.map (fun rs =>
    if ¬ rs.busy then rs
    else match rs.instructionId with
    | none => rs
    | some iid =>
      match state.instructions.get? iid with
      | some instruction =>
        if instruction.isSpeculative then
          { name := rs.name, rsType := rs.rsType, busy := false }
        else rs
      | none => rs)
  let newFunctionalUnits := state.functionalUnits.map (fun fu =>
    if ¬ fu.busy then fu
    else match fu.instructionId with
    | none => fu
    | some iid =>
      match state.instructions.get? iid with
      | some instruction =>
        if instruction.isSpeculative then
          { name := fu.name, fuType := fu.fuType, busy := false
            cyclesRemaining := 0, totalCycles := 0 }
        else fu
      | none => fu)
  let newInstructions := state.instructions.map (fun instr =>
    if instr.isSpeculative ∧ instr.id > checkpoint.instructionId ∧
        instr.state ≠ .committed ∧ instr.state ≠ .idle then
      { instr with state := .flushed, isSpeculative := false }
    else instr)
  { state with
    registerRenaming := restoreRAT checkpoint.ratSnapshot
    rob := newRob
    robTail := checkpoint.robTailSnapshot
    reservationStations := newReservationStations
    functionalUnits := newFunctionalUnits
    instructions := newInstructions
    flushCount := state.flushCount + 1 }

/-- `commitCycle` (`commit-cycle.ts`): retire the ROB head if busy and ready,
stalling speculative heads behind an unresolved checkpoint; on branch heads
with an incorrect (or unresolved) checkpoint, flush and redirect; then clear
the head slot, advance the head and mark the instruction `committed`. -/
def commitCycle (state : SimulatorState) : SimulatorState :=
  match state.rob.get? state.robHead with
  | none => state
  | some headEntry =>
    if ¬ headEntry.busy ∨ ¬ headEntry.ready then state
    else match headEntry.instructionId with
    | none => state
    | some instructionId =>
      match state.instructions.get? instructionId with
      | none => state
      | some instruction =>
        let blocked := headEntry.isSpeculative &&
          match headEntry.branchCheckpointId with
          | some cid =>
            match state.branchCheckpoints.find? (fun cp => cp.id == cid) with
            | some cp => ¬ cp.resolved
            | none => false
          | none => false
        if blocked then state
        else
          let stage1 : SimulatorState :=
            match headEntry.typ with
            | some .ALU | some .LOAD =>
              match headEntry.destination, headEntry.value with
              | some dest, some value =>
                if dest ≠ "" then
                  { state with
                    registerFile := jsMapSet state.registerFile dest value
                    registerRenaming :=
                      clearRATIfMatches state.registerRenaming dest
                        state.robHead }
                else state
              | _, _ => state
            | some .STORE =>
              match headEntry.address, headEntry.value with
              | some address, some value => storeToMemory address value state
              | _, _ => state
            | some .BRANCH =>
              match findCheckpoint instructionId state with
              | none => state
              | some checkpoint =>
                let actualTaken := headEntry.value == some 1
                -- JS `if (!checkpoint.correct)`: flush unless `correct` is
                -- literally `true`
                let s1 :=
                  if checkpoint.correct ≠ some true then
                    let sf := flushSpeculativeState checkpoint state
                    let branchTarget :=
                      checkpoint.pc + (instruction.immediate.getD 1)
                    let fallthrough := checkpoint.pc + 1
                    let correctTarget :=
                      if actualTaken then branchTarget else fallthrough
                    { sf with
                      pc := correctTarget
                      mispredictionCount := sf.mispredictionCount + 1 }
                  else
                    { state with branchCorrect := state.branchCorrect + 1 }
                let s2 := { s1 with
                  branchPredictor :=
                    updatePredictor checkpoint.pc actualTaken
                      s1.branchPredictor }
                removeCheckpoint checkpoint.id
                  { s2 with branchesExecuted := s2.branchesExecuted + 1 }
            | none => state
          { stage1 with
            rob := stage1.rob.set state.robHead (clearedROBEntry state.robHead)
            robHead := (state.robHead + 1) % state.rob.length
            instructions := stage1.instructions.map (fun inst =>
              if inst.id == instructionId then
                { inst with
                  state := .committed
                  commitTime := some stage1.cycle }
              else inst)
            instructionsCommitted := stage1.instructionsCommitted + 1 }

/-- Result record of `issueCycle` (`issue-cycle.ts`). -/
structure IssueResult where
  state : SimulatorState
  issueStallOccurred : Bool

/-- The speculation flags and branch handling of `issueCycle`
(`issue-cycle.ts`): determine whether the admitted instruction is issued
speculatively under the oldest unresolved checkpoint; for an enabled
conditional branch, predict, create a checkpoint and redirect the PC; for
non-branches, advance the PC.  Returns the updated state, the instruction's
speculative flag and its checkpoint id. -/
def issueBranchHandling (state : SimulatorState) (instruction : Instruction) :
    SimulatorState × Bool × Option Nat :=
  let isSpec0 := hasUnresolvedCheckpoints state
  let checkpointId0 : Option Nat :=
    if isSpec0 then
      (state.branchCheckpoints.find? (fun cp => ¬ cp.resolved)).map (·.id)
    else none
  if (instruction.operation = .BEQ ∨ instruction.operation = .BNE) ∧
      state.speculationEnabled then
    let basePc := jsOr state.pc (instruction.id : Int)
    let branchTarget := basePc + instruction.immediate.getD 1
    let fallthrough := basePc + 1
    let prediction := predictBranch basePc state.branchPredictor fallthrough
    let predictedTarget :=
      if prediction.taken then branchTarget else fallthrough
    let checkpoint := createCheckpoint instruction.id basePc prediction
      predictedTarget state
    ({ state with
       branchCheckpoints := state.branchCheckpoints ++ [checkpoint]
       nextCheckpointId := state.nextCheckpointId + 1
       pc := predictedTarget },
     false, some checkpoint.id)
  else if instruction.operation ≠ .BEQ ∧ instruction.operation ≠ .BNE then
    ({ state with pc := jsOr state.pc (instruction.id : Int) + 1 },
     isSpec0, checkpointId0)
  else (state, isSpec0, checkpointId0)

/-- The success path of `issueCycle` (`issue-cycle.ts`), once the admission
checks passed and a free ROB slot `robIndex` and station `rsIndex` are in
hand: allocate both, freeze the LOAD/STORE address from the committed
register file, handle branch prediction and checkpointing, rename the
destination (except for STORE and branches) and mark the instruction
`issued`. -/
def issueAdmit (state : SimulatorState) (instruction : Instruction)
    (robIndex rsIndex : Nat) : SimulatorState :=
  let src1Info := getRegisterValue instruction.src1 state
      let src2Info := getRegisterValue instruction.src2 state
      let robType : ROBType :=
        match instruction.operation with
        | .LOAD => .LOAD
        | .STORE => .STORE
        | .BEQ | .BNE => .BRANCH
        | _ => .ALU
      let address : Option Int :=
        if instruction.operation = .LOAD then
          some (calculateAddress instruction.src1
            (instruction.immediate.getD 0) state)
        else if instruction.operation = .STORE then
          some (calculateAddress instruction.dest
            (instruction.immediate.getD 0) state)
        else none
      match issueBranchHandling state instruction with
      | (newState, isSpec, checkpointId) =>
        let newRob := newState.rob.set robIndex
          { index := robIndex
            busy := true
            instructionId := some instruction.id
            typ := some robType
            destination :=
              if instruction.dest = "" then none else some instruction.dest
            value := none
            ready := false
            isSpeculative := isSpec
            branchCheckpointId := checkpointId
            address := address }
        let newReservationStations :=
          listModify newState.reservationStations rsIndex (fun rs =>
            { rs with
              busy := true
              op := some instruction.operation
              vj := src1Info.value
              vk := src2Info.value
              qj := src1Info.robTag.map (fun t => "ROB" ++ toString t)
              qk := src2Info.robTag.map (fun t => "ROB" ++ toString t)
              dest := some ("ROB" ++ toString robIndex)
              address := address
              instructionId := some instruction.id })
        let newRegisterRenaming :=
          if instruction.dest ≠ "" ∧ instruction.operation ≠ .STORE ∧
              instruction.operation ≠ .BEQ ∧ instruction.operation ≠ .BNE then
            updateRAT newState.registerRenaming instruction.dest robIndex
          else newState.registerRenaming
        let newInstructions := newState.instructions.map (fun inst =>
          if inst.id == instruction.id then
            { inst with
              state := .issued
              issueTime := some newState.cycle
              robEntry := some robIndex
              isSpeculative := isSpec }
          else inst)
        { newState with
          instructions := newInstructions
          reservationStations := newReservationStations
          rob := newRob
          robTail := (robIndex + 1) % newState.rob.length
          registerRenaming := newRegisterRenaming }

/-- `issueCycle` (`issue-cycle.ts`): admit the first `idle` instruction when a
ROB slot and a matching station are free; on failure report an issue stall
with no state change. -/
def issueCycle (state : SimulatorState) : IssueResult :=
  match state.instructions.find? (fun inst => inst.state == .idle) with
  | none => { state, issueStallOccurred := false }
  | some instruction =>
    let stall1 := ¬ canIssue instruction.id state
    let robIndex? := findFreeROBEntry state
    let rsType := getReservationStationType instruction.operation
    let rsIndex? := findFreeReservationStation rsType state
    if stall1 ∨ robIndex?.isNone ∨ rsIndex?.isNone then
      { state, issueStallOccurred := true }
    else match robIndex?, rsIndex? with
    | some robIndex, some rsIndex =>
      { state := issueAdmit state instruction robIndex rsIndex
        issueStallOccurred := false }
    | _, _ => { state, issueStallOccurred := true }

/-- `stepCycle` (`simulator-engine.ts`): one atomic tick, composing
Commit → Writeback → Execute → Issue, then accounting stalls and advancing
the cycle counter. -/
def stepCycle (state : SimulatorState) : SimulatorState :=
  let preCommitFlushCount := state.flushCount
  let s1 := commitCycle state
  let stall1 := preCommitFlushCount < s1.flushCount
  let s2 := writeBackCycle s1
  let executeResult := executeCycle s2
  let stall2 := executeResult.dataHazardOccurred ||
    executeResult.structuralHazardOccurred
  let issueResult := issueCycle executeResult.state
  let stall3 := issueResult.issueStallOccurred
  let s5 :=
    if stall1 || stall2 || stall3 then
      { issueResult.state with
        cyclesWithAnyStall := issueResult.state.cyclesWithAnyStall + 1 }
    else issueResult.state
  { s5 with cycle := s5.cycle + 1 }

/-- `createInitialState` (`simulator-engine.ts`): the sample MIPS program over
memory `{0 ↦ 5, 4 ↦ 3}`, registers `R0..R7 = 0`, 7 reservation stations,
4 functional units and an 8-entry ROB. -/
def createInitialState : SimulatorState :=
  { instructions :=
      [ { id := 0, text := "LOAD R1, 0", operation := .LOAD, dest := "R1"
          src1 := "", src2 := "", immediate := some 0, state := .idle
          isSpeculative := false }
      , { id := 1, text := "LOAD R2, 4", operation := .LOAD, dest := "R2"
          src1 := "", src2 := "", immediate := some 4, state := .idle
          isSpeculative := false }
      , { id := 2, text := "ADD R3, R1, R2", operation := .ADD, dest := "R3"
          src1 := "R1", src2 := "R2", state := .idle
          isSpeculative := false }
      , { id := 3, text := "MUL R4, R3, R1", operation := .MUL, dest := "R4"
          src1 := "R3", src2 := "R1", state := .idle
          isSpeculative := false }
      , { id := 4, text := "SUB R5, R4, R2", operation := .SUB, dest := "R5"
          src1 := "R4", src2 := "R2", state := .idle
          isSpeculative := false }
      , { id := 5, text := "STORE R5, 8", operation := .STORE, dest := ""
          src1 := "R5", src2 := "", immediate := some 8, state := .idle
          isSpeculative := false } ]
    reservationStations :=
      [ { name := "Add1", rsType := .ADD, busy := false }
      , { name := "Add2", rsType := .ADD, busy := false }
      , { name := "Mul1", rsType := .MUL, busy := false }
      , { name := "Mul2", rsType := .MUL, busy := false }
      , { name := "Load1", rsType := .LOAD, busy := false }
      , { name := "Load2", rsType := .LOAD, busy := false }
      , { name := "Store1", rsType := .STORE, busy := false } ]
    functionalUnits :=
      [ { name := "AddUnit1", fuType := .ADD, busy := false
          cyclesRemaining := 0, totalCycles := 0 }
      , { name := "MulUnit1", fuType := .MUL, busy := false
          cyclesRemaining := 0, totalCycles := 0 }
      , { name := "LoadUnit1", fuType := .LOAD, busy := false
          cyclesRemaining := 0, totalCycles := 0 }
      , { name := "StoreUnit1", fuType := .STORE, busy := false
          cyclesRemaining := 0, totalCycles := 0 } ]
    rob := (List.range 8).map clearedROBEntry
    robHead := 0
    robTail := 0
    registerFile :=
      [ ("R0", 0), ("R1", 0), ("R2", 0), ("R3", 0), ("R4", 0), ("R5", 0)
      , ("R6", 0), ("R7", 0) ]
    registerRenaming := []
    memory := [(0, 5), (4, 3)]
    cycle := 0
    instructionsCommitted := 0
    branchPredictions := []
    speculationEnabled := true
    isPaused := false
    pendingBroadcasts := []
    branchCheckpoints := []
    nextCheckpointId := 0
    pc := 0
    branchPredictor := { ptype := .twoBit, table := [] }
    branchesExecuted := 0
    branchCorrect := 0
    mispredictionCount := 0
    flushCount := 0
    issueStalls := 0
    dataHazardStalls := 0
    structuralHazardStalls := 0
    cyclesWithAnyStall := 0 }

/-!
## Claim C1: end-to-end scenario
-/

/-- The sample program's state after 20 `stepCycle` iterations. -/
def finalState : SimulatorState := stepCycle^[20] createInitialState

set_option maxRecDepth 100000 in
/-- C1: iterating `stepCycle` from the initial state (sample program
`LOAD R1,0; LOAD R2,4; ADD R3,R1,R2; MUL R4,R3,R1; SUB R5,R4,R2; STORE R5,8`
over memory `{0:5, 4:3}`) reaches, after 20 cycles, a state in which all 6
instructions are committed, the register file maps `R1=5, R2=3, R3=8, R4=40,
R5=37`, memory is `{0:5, 4:3, 8:37}`, `instructionsCommitted = 6`, and no
reservation station, functional unit or ROB entry is busy. -/
theorem endToEnd_scenario :
    finalState.instructionsCommitted = 6 ∧
    finalState.instructions.all
      (fun i => i.state == InstrState.committed) = true ∧
    jsMapGet finalState.registerFile ("R1") = some 5 ∧
    jsMapGet finalState.registerFile ("R2") = some 3 ∧
    jsMapGet finalState.registerFile ("R3") = some 8 ∧
    jsMapGet finalState.registerFile ("R4") = some 40 ∧
    jsMapGet finalState.registerFile ("R5") = some 37 ∧
    finalState.memory = [(0, 5), (4, 3), (8, 37)] ∧
    finalState.reservationStations.all (fun rs => !rs.busy) = true ∧
    finalState.functionalUnits.all (fun fu => !fu.busy) = true ∧
    finalState.rob.all (fun e => !e.busy) = true := by
  decide

/-!
## Claim C2: functional-unit latency
-/

/-- A minimal state holding a single already-issued instruction of operation
`op`, waiting in a matching reservation station with both operands resolved
and every functional unit free: the dispatch of the next `stepCycle` meets no
hazard. -/
def mkDispatchState (op : OpType) : SimulatorState :=
  { createInitialState with
    instructions :=
      [ { id := 0, text := "test", operation := op, dest := ""
          src1 := "", src2 := "", immediate := some 0, state := .issued
          isSpeculative := false, robEntry := some 0, issueTime := some 0 } ]
    reservationStations :=
      [ { name := "RS1", rsType := getReservationStationType op, busy := true
          op := some op, vj := some 6, vk := some 3, dest := some ("ROB0")
          address := some 0, instructionId := some 0 } ]
    rob :=
      { index := 0, busy := true, instructionId := some 0
        typ := some ROBType.ALU, ready := false, isSpeculative := false } ::
        (List.range 7).map (fun i => clearedROBEntry (i + 1))
    robHead := 0
    robTail := 1 }

set_option maxRecDepth 10000 in
/-- C2 (counterexample): in the end-to-end sample run, the `MUL` instruction
(id 3, latency 4) enters `executing` at cycle 9 and is `ready` at cycle 12:
`execEndTime - execStartTime = 3`, not 4 as the claim states. -/
theorem latency_claim_counterexample :
    ((stepCycle^[20] createInitialState).instructions.get? 3).map
      (fun i => (i.execStartTime, i.execEndTime)) = some (some 9, some 12) ∧
    12 - 9 ≠ latencyOf OpType.MUL := by
  decide

set_option maxRecDepth 10000 in
/-- C2 (amended): for every opcode with latency `L`, an instruction dispatched
with no hazard interference becomes `ready` exactly `L - 1` cycles after it
entered `executing` (the dispatching cycle already performs the first
countdown decrement): `execStartTime = 0`, `execEndTime = L - 1`, the
instruction is `ready` after `L` steps and not yet `ready` after `L - 1`
steps. -/
theorem latency_amended (op : OpType) :
    (((stepCycle^[latencyOf op] (mkDispatchState op)).instructions.get? 0).map
      (fun i => (i.state, i.execStartTime, i.execEndTime))) =
      some (InstrState.ready, some 0, some (latencyOf op - 1)) ∧
    (((stepCycle^[latencyOf op - 1]
        (mkDispatchState op)).instructions.get? 0).map (·.state)) ≠
      some InstrState.ready := by
  cases op <;> decide

/-!
## Claim C7: memory alignment
-/

/-- `jsMapSet` followed by `jsMapGet` at the same key yields the stored
value. -/
theorem jsMapGet_jsMapSet {κ α : Type} [BEq κ] [LawfulBEq κ]
    (m : List (κ × α)) (k : κ) (v : α) :
    jsMapGet (jsMapSet m k v) k = some v := by
  induction m with
  | nil => simp [jsMapGet, jsMapSet]
  | cons p rest ih =>
    by_cases hp : (p.1 == k) = true
    · simp [jsMapGet, jsMapSet, hp]
    · have hset : jsMapSet (p :: rest) k v = p :: jsMapSet rest k v := by
        simp only [jsMapSet, List.any_cons, hp, Bool.false_or]
        by_cases hr : rest.any (fun q => q.1 == k) = true
        · simp [hr, hp]
        · simp [hr, hp]
      rw [hset]
      simpa [jsMapGet, List.find?, hp] using ih

/-- C7 (counterexample): address 2 violates word alignment, yet the engine
performs the access: `storeToMemory` writes the value at address 2 and
`loadFromMemory` reads it back; no fault of any kind is raised. -/
theorem unaligned_access_performed :
    (2 : Int) % 4 ≠ 0 ∧
    jsMapGet (storeToMemory 2 42 createInitialState).memory 2 = some 42 ∧
    loadFromMemory 2 (storeToMemory 2 42 createInitialState) = 42 := by
  decide

/-- C7 (amended): the engine never checks alignment — for every address,
aligned or not, `storeToMemory` performs the write and `loadFromMemory`
returns the stored value; both are total and no fault is surfaced to the
caller. -/
theorem memory_access_ignores_alignment (a v : Int) (s : SimulatorState) :
    jsMapGet (storeToMemory a v s).memory a = some v ∧
    loadFromMemory a (storeToMemory a v s) = v := by
  have h := jsMapGet_jsMapSet s.memory a v
  refine ⟨h, ?_⟩
  simp [loadFromMemory, storeToMemory, h]

/-!
## Claim C8: 2-bit saturating branch predictor
-/

/-- C8: from the default Weakly-Not-Taken entry (state 1), three taken
updates saturate the counter at Strongly-Taken (3) and a fourth keeps it
there; not-taken updates saturate at 0; and `predictBranch` predicts taken
exactly for states 2 and 3. -/
theorem predictor_two_bit_saturating :
    let p0 : BranchPredictor := { ptype := PredictorType.twoBit, table := [] }
    let up := updatePredictor 7 true
    let dn := updatePredictor 7 false
    jsMapGet (up (up (up p0))).table 7 = some 3 ∧
    jsMapGet (up (up (up (up p0)))).table 7 = some 3 ∧
    jsMapGet (dn p0).table 7 = some 0 ∧
    jsMapGet (dn (dn p0)).table 7 = some 0 ∧
    (∀ st : Fin 4,
      (predictBranch 7 { ptype := PredictorType.twoBit
                         table := [(7, st.val)] } 8).taken =
        decide (st.val = 2 ∨ st.val = 3)) := by
  decide

/-!
## Claim C10: guarded division
-/

/-- C10: for every functional unit executing a `DIV`, a zero divisor yields
result 0 (the division is guarded and cannot fault); otherwise the result is
the floor of `Vj / Vk`. -/
theorem div_result_guarded (fu : FunctionalUnit) (s : SimulatorState)
    (hop : fu.operation = some OpType.DIV) :
    computeResult fu s =
      if fu.vk.getD 0 = 0 then 0
      else Int.fdiv (fu.vj.getD 0) (fu.vk.getD 0) := by
  simp only [computeResult, hop]
  by_cases hb : fu.vk.getD 0 = 0 <;> simp [hb]

/-- C10 (witness): a concrete `DIV` unit with operands 7 and 2 computes
`⌊7/2⌋ = 3`, and with divisor 0 computes 0. -/
theorem div_result_guarded_witness :
    computeResult { name := "MulUnit1", fuType := RSType.MUL, busy := true
                    instructionId := some 0, cyclesRemaining := 1
                    totalCycles := 8, operation := some OpType.DIV
                    vj := some 7, vk := some 2 } createInitialState = 3 ∧
    computeResult { name := "MulUnit1", fuType := RSType.MUL, busy := true
                    instructionId := some 0, cyclesRemaining := 1
                    totalCycles := 8, operation := some OpType.DIV
                    vj := some 7, vk := some 0 } createInitialState = 0 := by
  constructor
  · rw [div_result_guarded _ _ rfl]; decide
  · rw [div_result_guarded _ _ rfl]; decide

/-!
## Claim C9: effective address computed at Issue
-/

/-- A state whose first idle instruction is `LOAD R2, o(R1)` while `R1` is
renamed to ROB entry 0, whose in-flight producer already holds the ready
value `w`; the committed register file holds `R1 = v`. -/
def mkC9State (v w o : Int) : SimulatorState :=
  { createInitialState with
    instructions :=
      [ { id := 0, text := "ADD R1, R3, R4", operation := .ADD, dest := "R1"
          src1 := "R3", src2 := "R4", state := .issued, robEntry := some 0
          isSpeculative := false }
      , { id := 1, text := "LOAD R2, o(R1)", operation := .LOAD, dest := "R2"
          src1 := "R1", src2 := "", immediate := some o, state := .idle
          isSpeculative := false } ]
    rob :=
      { index := 0, busy := true, instructionId := some 0
        typ := some ROBType.ALU, destination := some ("R1"), value := some w
        ready := true, isSpeculative := false } ::
        (List.range 7).map (fun i => clearedROBEntry (i + 1))
    robHead := 0
    robTail := 1
    registerRenaming := [{ register := "R1", robEntry := some 0 }]
    registerFile := [("R1", v), ("R2", 0)] }

/-- C9 (counterexample): issuing the `LOAD` of `mkC9State 1 100 8` stores
effective address `1 + 8 = 9` — taken from the committed register file — into
both the ROB entry and the reservation station, even though the RAT-resolved
value of the base register (the in-flight producer's ready result, 100, which
Issue does use for the `Vj` operand) would give `100 + 8 = 108`. -/
theorem issue_address_counterexample :
    ((((issueCycle (mkC9State 1 100 8)).state.rob.get? 1).map (·.address)) =
      some (some 9)) ∧
    (getRegisterValue ("R1") (mkC9State 1 100 8)).value = some 100 ∧
    ((((issueCycle (mkC9State 1 100 8)).state.reservationStations.get? 4).map
      (fun rs => (rs.address, rs.vj))) = some (some 9, some 100)) ∧
    (9 : Int) ≠ 100 + 8 := by
  decide

/-- C9 (amended): the effective address frozen at Issue for a LOAD is the
committed register-file value of the base register plus the immediate offset
— `calculateAddress` never consults the RAT, even when the base register is
renamed to a ready in-flight producer (whose value is nevertheless used for
the operand `Vj`). -/
theorem issue_address_from_register_file (v w o : Int) :
    ((((issueCycle (mkC9State v w o)).state.rob.get? 1).map (·.address)) =
      some (some (v + o))) ∧
    ((((issueCycle
        (mkC9State v w o)).state.reservationStations.get? 4).map
      (fun rs => (rs.address, rs.vj))) = some (some (v + o), some w)) := by
  constructor <;> rfl

/-!
## Claim C5: misprediction recovery at Commit
-/

/-- C5: when Commit retires a branch whose checkpoint recorded
`predictedTaken = true` but whose actual resolution was not-taken (branch
value 0, recorded correctness `false`), the post-commit state marks every
instruction that was speculative, with id greater than the branch's, and not
`committed`/`idle`, as `flushed`; `flushCount` grows by exactly one; and the
program counter equals the fallthrough address `checkpoint.pc + 1`. -/
theorem mispredict_recovery (s : SimulatorState) (h : ROBEntry)
    (iid : Nat) (instr : Instruction) (cp : BranchCheckpoint)
    (hhead : s.rob.get? s.robHead = some h)
    (hbusy : h.busy = true) (hready : h.ready = true)
    (hiid : h.instructionId = some iid)
    (hinstr : s.instructions.get? iid = some instr)
    (hnospec : h.isSpeculative = false)
    (htyp : h.typ = some ROBType.BRANCH)
    (hcp : findCheckpoint iid s = some cp)
    (hpred : cp.predictedTaken = true)
    (hcorr : cp.correct = some false)
    (hval : h.value = some 0) :
    (∀ k e, s.instructions.get? k = some e → e.isSpeculative = true →
      cp.instructionId < e.id → e.state ≠ InstrState.committed →
      e.state ≠ InstrState.idle →
      ((commitCycle s).instructions.get? k).map (·.state) =
        some InstrState.flushed) ∧
    (commitCycle s).flushCount = s.flushCount + 1 ∧
    (commitCycle s).pc = cp.pc + 1 := by
  have hcpid : cp.instructionId = iid := by
    have := List.find?_some hcp
    simpa using this
  have hred : commitCycle s =
    (let stage1 :=
      (let sf := flushSpeculativeState cp s
       let s1 : SimulatorState :=
        { sf with
          pc := cp.pc + 1
          mispredictionCount := sf.mispredictionCount + 1 }
       let s2 := { s1 with
          branchPredictor := updatePredictor cp.pc false s1.branchPredictor }
       removeCheckpoint cp.id
         { s2 with branchesExecuted := s2.branchesExecuted + 1 })
     { stage1 with
        rob := stage1.rob.set s.robHead (clearedROBEntry s.robHead)
        robHead := (s.robHead + 1) % s.rob.length
        instructions := stage1.instructions.map (fun inst =>
          if inst.id == iid then
            { inst with
              state := InstrState.committed
              commitTime := some stage1.cycle }
          else inst)
        instructionsCommitted := stage1.instructionsCommitted + 1 }) := by
    simp only [commitCycle, hhead, hbusy, hready, hiid, hinstr, hnospec, htyp,
      hcp, hcorr, hval]
    simp
  rw [hred]
  refine ⟨?_, ?_, ?_⟩
  · intro k e hk hspec hid hcomm hidle
    have hne : (e.id == iid) = false := by
      rw [hcpid] at hid
      simp [Nat.ne_of_gt hid]
    simp only [removeCheckpoint, flushSpeculativeState, List.get?_map, hk,
      Option.map_some]
    have hne2 : ¬ (e.id = iid) := by rw [hcpid] at hid; omega
    simp [hspec, hid, hcomm, hidle, hne, hne2]
  · simp [removeCheckpoint, flushSpeculativeState]
  · simp [removeCheckpoint, flushSpeculativeState]

/-- A state whose ROB head is a retiring `BEQ` that was predicted taken,
resolved not-taken (value 0, checkpoint recorded incorrect), with one
speculative `ADD` (id 1) in flight behind it. -/
def mkC5State : SimulatorState :=
  { createInitialState with
    instructions :=
      [ { id := 0, text := "BEQ R1, R1, 3", operation := .BEQ, dest := ""
          src1 := "R1", src2 := "R1", immediate := some 3, state := .ready
          isSpeculative := false, robEntry := some 0 }
      , { id := 1, text := "ADD R3, R1, R2", operation := .ADD, dest := "R3"
          src1 := "R1", src2 := "R2", state := .issued
          isSpeculative := true, robEntry := some 1 } ]
    rob :=
      { index := 0, busy := true, instructionId := some 0
        typ := some ROBType.BRANCH, value := some 0, ready := true
        isSpeculative := false, branchCheckpointId := some 0 } ::
      { index := 1, busy := true, instructionId := some 1
        typ := some ROBType.ALU, destination := some ("R3"), ready := false
        isSpeculative := true, branchCheckpointId := some 0 } ::
        (List.range 6).map (fun i => clearedROBEntry (i + 2))
    robHead := 0
    robTail := 2
    registerRenaming := [{ register := "R3", robEntry := some 1 }]
    branchCheckpoints :=
      [ { id := 0, instructionId := 0, pc := 10, ratSnapshot := []
          robTailSnapshot := 1, predictedTaken := true, predictedTarget := 13
          resolved := true, correct := some false } ]
    nextCheckpointId := 1 }

/-- C5 (witness): on `mkC5State`, committing the mispredicted branch flushes
the speculative `ADD`, increments `flushCount` and redirects the PC to the
fallthrough address `10 + 1 = 11`. -/
theorem mispredict_recovery_witness :
    ((commitCycle mkC5State).instructions.get? 1).map (·.state) =
      some InstrState.flushed ∧
    (commitCycle mkC5State).flushCount = mkC5State.flushCount + 1 ∧
    (commitCycle mkC5State).pc = 11 := by
  have H := mispredict_recovery mkC5State _ 0 _ _ rfl rfl rfl rfl rfl rfl rfl
    rfl rfl rfl rfl
  exact ⟨H.1 1 _ rfl rfl (by decide) (by decide) (by decide), H.2.1, H.2.2⟩

/-!
## Claim C6: no CDB broadcast for instructions flushed by a misprediction
-/

/-- A state at the start of the cycle in which a mispredicted branch (id 0,
at the ROB head, already made ready by last cycle's broadcast) commits, while
the speculative `ADD` (id 1) behind it has finished executing and its result
sits queued in `pendingBroadcasts` (last cycle's single CDB slot went to the
branch).  Its functional unit still holds the computed result. -/
def mkC6State : SimulatorState :=
  { createInitialState with
    instructions :=
      [ { id := 0, text := "BEQ R1, R1, 3", operation := .BEQ, dest := ""
          src1 := "R1", src2 := "R1", immediate := some 3
          state := .writeback, isSpeculative := false, robEntry := some 0 }
      , { id := 1, text := "ADD R3, R1, R2", operation := .ADD, dest := "R3"
          src1 := "R1", src2 := "R2", state := .ready
          isSpeculative := true, robEntry := some 1 } ]
    reservationStations := createInitialState.reservationStations
    functionalUnits :=
      [ { name := "AddUnit1", fuType := .ADD, busy := true
          instructionId := some 1, cyclesRemaining := 0, totalCycles := 2
          result := some 42, operation := some .ADD, vj := some 40
          vk := some 2 }
      , { name := "MulUnit1", fuType := .MUL, busy := false
          cyclesRemaining := 0, totalCycles := 0 }
      , { name := "LoadUnit1", fuType := .LOAD, busy := false
          cyclesRemaining := 0, totalCycles := 0 }
      , { name := "StoreUnit1", fuType := .STORE, busy := false
          cyclesRemaining := 0, totalCycles := 0 } ]
    rob :=
      { index := 0, busy := true, instructionId := some 0
        typ := some ROBType.BRANCH, value := some 0, ready := true
        isSpeculative := false, branchCheckpointId := some 0 } ::
      { index := 1, busy := true, instructionId := some 1
        typ := some ROBType.ALU, destination := some ("R3"), ready := false
        isSpeculative := true, branchCheckpointId := some 0 } ::
        (List.range 6).map (fun i => clearedROBEntry (i + 2))
    robHead := 0
    robTail := 2
    registerRenaming := [{ register := "R3", robEntry := some 1 }]
    pendingBroadcasts := [{ robTag := 1, value := 42, instructionId := 1 }]
    branchCheckpoints :=
      [ { id := 0, instructionId := 0, pc := 10, ratSnapshot := []
          robTailSnapshot := 1, predictedTaken := true, predictedTarget := 14
          resolved := true, correct := some false } ]
    nextCheckpointId := 1 }

/-- C6: the misprediction flush during Commit of this `stepCycle` marks
instruction 1 `flushed` and cancels its functional unit, but its result is
still queued in `pendingBroadcasts`; the same cycle's Writeback pops and
broadcasts it: the instruction ends the cycle in state `writeback` and the
(flush-cleared) ROB entry 1 is marked `ready` — the flushed producer's result
is broadcast on the CDB after the flush, contradicting the claim. -/
theorem flushed_broadcast_leak :
    ((commitCycle mkC6State).instructions.get? 1).map (·.state) =
      some InstrState.flushed ∧
    (commitCycle mkC6State).flushCount = mkC6State.flushCount + 1 ∧
    (commitCycle mkC6State).pendingBroadcasts =
      [{ robTag := 1, value := 42, instructionId := 1 }] ∧
    ((stepCycle mkC6State).instructions.get? 1).map (·.state) =
      some InstrState.writeback ∧
    ((stepCycle mkC6State).rob.get? 1).map (fun e => (e.ready, e.busy)) =
      some (true, false) := by
  decide

/-!
## Claim C4: in-order commit on all reachable states
-/

/-- The in-order-commit check: among non-flushed instructions with an
assigned `commitTime`, a smaller id has a strictly smaller `commitTime`. -/
def commitOrderOK (l : List Instruction) : Bool :=
  l.all (fun a => l.all (fun b =>
    if a.id < b.id ∧ a.state ≠ InstrState.flushed ∧
        b.state ≠ InstrState.flushed then
      match a.commitTime, b.commitTime with
      | some ta, some tb => decide (ta < tb)
      | _, _ => true
    else true))

/-- `commitOrderOK` along the first `n` steps of a run. -/
def trajOK : Nat → SimulatorState → Bool
  | 0, s => commitOrderOK s.instructions
  | n + 1, s => commitOrderOK s.instructions && trajOK n (stepCycle s)

/-- A true `trajOK n` gives `commitOrderOK` at every prefix state. -/
theorem trajOK_spec :
    ∀ n s, trajOK n s = true → ∀ k, k ≤ n →
      commitOrderOK ((stepCycle^[k] s).instructions) = true := by
  intro n
  induction n with
  | zero =>
    intro s h k hk
    interval_cases k
    simpa [trajOK] using h
  | succ n ih =>
    intro s h k hk
    rw [trajOK] at h
    rcases Bool.and_eq_true_iff.mp h with ⟨h1, h2⟩
    cases k with
    | zero => simpa using h1
    | succ j =>
      rw [Function.iterate_succ_apply]
      exact ih (stepCycle s) h2 j (by omega)

/-- Busy flag of ROB slot `i` (false when out of range). -/
def robBusyAt (s : SimulatorState) (i : Nat) : Bool :=
  ((s.rob.get? i).map (·.busy)).getD false

/-- A drained pipeline: head ROB slot idle, empty CDB queue, no busy station
or unit, and no instruction left to issue.  Every stage of `stepCycle` is a
no-op on such a state except the cycle counter. -/
def quiescent (s : SimulatorState) : Bool :=
  !robBusyAt s s.robHead && s.pendingBroadcasts.isEmpty &&
  s.reservationStations.all (fun rs => !rs.busy) &&
  s.functionalUnits.all (fun fu => !fu.busy) &&
  s.instructions.all (fun i => i.state != InstrState.idle)

/-- Folding a function that fixes `a` leaves `a` unchanged. -/
theorem foldl_id {α β : Type} (f : α → β → α) (a : α)
    (h : ∀ b, f a b = a) : ∀ l : List β, l.foldl f a = a := by
  intro l
  induction l with
  | nil => rfl
  | cons x xs ih => rw [List.foldl_cons, h x]; exact ih

/-- Commit stalls when the ROB head slot is not busy. -/
theorem commit_noop (s : SimulatorState)
    (h : robBusyAt s s.robHead = false) : commitCycle s = s := by
  unfold commitCycle
  cases hg : s.rob.get? s.robHead with
  | none => rfl
  | some e =>
    have hb : e.busy = false := by
      unfold robBusyAt at h
      rw [hg] at h
      simpa using h
    simp [hb]

/-- No broadcasts are collected when no functional unit is busy. -/
theorem collect_nil (s : SimulatorState)
    (h : s.functionalUnits.all (fun fu => !fu.busy) = true) :
    collectReadyBroadcasts s = [] := by
  rw [collectReadyBroadcasts, List.filterMap_eq_nil_iff]
  intro i _
  cases hg : s.functionalUnits.get? i with
  | none => rfl
  | some fu =>
    have hb : fu.busy = false := by
      have := List.all_eq_true.mp h fu (List.get?_mem hg)
      simpa using this
    simp [hb]

/-- Clearing an already empty broadcast queue is the identity. -/
theorem setPendingNil_eta (s : SimulatorState)
    (hq : s.pendingBroadcasts = []) :
    { s with pendingBroadcasts := ([] : List CDBBroadcast) } = s := by
  cases s
  simp_all

/-- Writeback is a no-op when no unit is busy and the queue is empty. -/
theorem wb_noop (s : SimulatorState)
    (hfu : s.functionalUnits.all (fun fu => !fu.busy) = true)
    (hq : s.pendingBroadcasts = []) : writeBackCycle s = s := by
  have hwq : writeBackQueue s = [] := by
    rw [writeBackQueue, collect_nil s hfu, hq]
    rfl
  rw [writeBackCycle, hwq]
  exact setPendingNil_eta s hq

/-- The dispatch loop skips every non-busy station. -/
theorem dispatchStep_noop (c : Nat) (acc : DispatchAcc) (i : Nat)
    (h : acc.rss.all (fun rs => !rs.busy) = true) :
    dispatchStep c acc i = acc := by
  unfold dispatchStep
  cases hg : acc.rss.get? i with
  | none => rfl
  | some rs =>
    have hb : rs.busy = false := by
      have := List.all_eq_true.mp h rs (List.get?_mem hg)
      simpa using this
    simp [hb]

/-- Dispatch is a no-op when no station is busy. -/
theorem dispatch_noop (s : SimulatorState)
    (h : s.reservationStations.all (fun rs => !rs.busy) = true) :
    dispatchToFunctionalUnits s =
      { state := s, dataHazardOccurred := false
        structuralHazardOccurred := false } := by
  rw [dispatchToFunctionalUnits]
  rw [foldl_id _ _ (fun i => dispatchStep_noop s.cycle _ i h)]

/-- The countdown loop skips every non-busy unit. -/
theorem countdownStep_noop (o : SimulatorState) (acc : CountdownAcc) (i : Nat)
    (h : acc.fus.all (fun fu => !fu.busy) = true) :
    countdownStep o acc i = acc := by
  unfold countdownStep
  cases hg : acc.fus.get? i with
  | none => rfl
  | some fu =>
    have hb : fu.busy = false := by
      have := List.all_eq_true.mp h fu (List.get?_mem hg)
      simpa using this
    simp [hb]

/-- The countdown phase is a no-op when no unit is busy. -/
theorem updateFU_noop (s : SimulatorState)
    (h : s.functionalUnits.all (fun fu => !fu.busy) = true) :
    updateFunctionalUnits s = s := by
  rw [updateFunctionalUnits]
  rw [foldl_id _ _ (fun i => countdownStep_noop s _ i h)]

/-- Execute is a no-op (and hazard-free) on a drained pipeline. -/
theorem exec_noop (s : SimulatorState)
    (hrs : s.reservationStations.all (fun rs => !rs.busy) = true)
    (hfu : s.functionalUnits.all (fun fu => !fu.busy) = true) :
    executeCycle s =
      { state := s, dataHazardOccurred := false
        structuralHazardOccurred := false } := by
  rw [executeCycle, dispatch_noop s hrs]
  simp only
  rw [updateFU_noop s hfu]

/-- Issue is a no-op when no instruction is `idle`. -/
theorem issue_noop (s : SimulatorState)
    (h : s.instructions.all (fun i => i.state != InstrState.idle) = true) :
    issueCycle s = { state := s, issueStallOccurred := false } := by
  have hf : s.instructions.find? (fun inst => inst.state == InstrState.idle) =
      none := by
    rw [List.find?_eq_none]
    intro a ha
    have := List.all_eq_true.mp h a ha
    simpa using this
  rw [issueCycle, hf]

/-- On a quiescent state, `stepCycle` only advances the cycle counter. -/
theorem quiescent_step (s : SimulatorState) (h : quiescent s = true) :
    stepCycle s = { s with cycle := s.cycle + 1 } := by
  unfold quiescent at h
  simp only [Bool.and_eq_true] at h
  obtain ⟨⟨⟨⟨h1, h2⟩, h3⟩, h4⟩, h5⟩ := h
  have h1' : robBusyAt s s.robHead = false := by simpa using h1
  have h2' : s.pendingBroadcasts = [] := by simpa using h2
  rw [stepCycle]
  rw [commit_noop s h1', wb_noop s h4 h2', exec_noop s h3 h4, issue_noop s h5]
  simp

/-- Quiescence is preserved and freezes the instruction table. -/
theorem quiescent_iterate (s : SimulatorState) (h : quiescent s = true) :
    ∀ m, (stepCycle^[m] s).instructions = s.instructions ∧
      quiescent (stepCycle^[m] s) = true := by
  intro m
  induction m with
  | zero => exact ⟨rfl, h⟩
  | succ n ih =>
    rw [Function.iterate_succ_apply']
    obtain ⟨hi, hq⟩ := ih
    rw [quiescent_step _ hq]
    exact ⟨hi, hq⟩

set_option maxRecDepth 100000 in
/-- The sample run satisfies the commit-order check up to cycle 20. -/
theorem trajOK_20 : trajOK 20 createInitialState = true := by decide

set_option maxRecDepth 100000 in
/-- C4: for every state reachable from the initial state by iterating
`stepCycle`, any two non-flushed instructions with assigned `commitTime`s
commit in id order with strictly increasing commit times.  The run drains
into a quiescent state at cycle 20, after which the instruction table is
frozen. -/
theorem inorder_commit (k : Nat) :
    commitOrderOK ((stepCycle^[k] createInitialState).instructions) = true := by
  rcases le_or_lt k 20 with hk | hk
  · exact trajOK_spec 20 createInitialState trajOK_20 k hk
  · obtain ⟨m, rfl⟩ : ∃ m, k = m + 20 := ⟨k - 20, by omega⟩
    rw [Function.iterate_add_apply]
    have hq : quiescent (stepCycle^[20] createInitialState) = true := by
      decide
    rw [(quiescent_iterate _ hq m).1]
    exact trajOK_spec 20 createInitialState trajOK_20 20 (le_refl 20)

/-!
## Claim C3: at most one CDB broadcast per cycle
-/

def listReadyAt (l : List ROBEntry) (i : Nat) : Bool :=
  ((l.get? i).map (·.ready)).getD false

/-- Ready flag of ROB slot `i` of a state. -/
def robReadyAt (s : SimulatorState) (i : Nat) : Bool :=
  listReadyAt s.rob i

/-- Overwriting one slot with a non-ready entry cannot create readiness. -/
theorem listReadyAt_set (l : List ROBEntry) (j : Nat) (e : ROBEntry)
    (he : e.ready = false) (i : Nat)
    (h : listReadyAt (l.set j e) i = true) : listReadyAt l i = true := by
  unfold listReadyAt at h ⊢
  by_cases hij : j = i
  · subst hij
    rw [List.get?_set_eq] at h
    cases hg : l.get? j with
    | none => rw [hg] at h; simp at h
    | some x => rw [hg] at h; simp [he] at h
  · rwa [List.get?_set_ne _ _ hij] at h

/-- The flush's ring-clearing loop cannot create readiness. -/
theorem listReadyAt_clearRange (c : Nat) :
    ∀ (l : List ROBEntry) (start size i : Nat),
      listReadyAt (clearROBRange l start c size) i = true →
      listReadyAt l i = true := by
  induction c with
  | zero => intro l start size i h; exact h
  | succ n ih =>
    intro l start size i h
    rw [clearROBRange] at h
    exact listReadyAt_set l start _ rfl i (ih _ _ _ _ h)

/-- Commit never marks a ROB entry ready: it only clears the head slot and,
on a flush, the discarded tail segment. -/
theorem commit_ready_mono (s : SimulatorState) (i : Nat)
    (h : robReadyAt (commitCycle s) i = true) : robReadyAt s i = true := by
  unfold commitCycle at h
  repeat' (first | split at h | dsimp only at h)
  all_goals
    first
    | exact h
    | (exact listReadyAt_set _ _ _ rfl i h)
    | (exact listReadyAt_clearRange _ _ _ _ i
        (listReadyAt_set _ _ _ rfl i h))

/-- Index computation for `mapWithIndex`. -/
theorem mapWithIndex_get? {α : Type} (f : Nat → α → α) :
    ∀ (l : List α) (n i : Nat),
      (mapWithIndex f n l).get? i = (l.get? i).map (f (n + i)) := by
  intro l
  induction l with
  | nil => intro n i; cases i <;> rfl
  | cons x xs ih =>
    intro n i
    cases i with
    | zero => simp [mapWithIndex]
    | succ j =>
      have := ih (n + 1) j
      simp only [mapWithIndex, List.get?_cons_succ, this]
      have harith : n + 1 + j = n + (j + 1) := by omega
      rw [harith]

/-- A CDB broadcast marks ready at most the tagged slot. -/
theorem broadcast_ready_mono (bd : CDBBroadcast) (s : SimulatorState)
    (i : Nat) (h : robReadyAt (broadcast bd s) i = true) :
    robReadyAt s i = true ∨ i = bd.robTag := by
  by_cases hit : i = bd.robTag
  · exact Or.inr hit
  · left
    unfold robReadyAt listReadyAt at h ⊢
    have hrob : (broadcast bd s).rob = mapWithIndex (fun idx entry =>
        if idx = bd.robTag then
          { entry with value := some bd.value, ready := true }
        else entry) 0 s.rob := rfl
    rw [hrob, mapWithIndex_get?] at h
    cases hg : s.rob.get? i with
    | none => rw [hg] at h; simp at h
    | some e =>
      rw [hg] at h
      simpa [Nat.zero_add, hit] using h

/-- Writeback marks ready at most one slot: the tag of the single popped
broadcast. -/
theorem wb_ready_mono (s : SimulatorState) :
    ∃ t, ∀ i, robReadyAt (writeBackCycle s) i = true →
      robReadyAt s i = true ∨ i = t := by
  cases hq : writeBackQueue s with
  | nil =>
    refine ⟨0, fun i h => Or.inl ?_⟩
    unfold writeBackCycle at h
    rw [hq] at h
    exact h
  | cons bd rest =>
    refine ⟨bd.robTag, fun i h => ?_⟩
    unfold writeBackCycle at h
    rw [hq] at h
    exact broadcast_ready_mono bd s i h

/-- Execute never touches the ROB. -/
theorem exec_rob (s : SimulatorState) : (executeCycle s).state.rob = s.rob := by
  have key : ∀ (o : SimulatorState) (l : List Nat) (acc : CountdownAcc),
      (l.foldl (countdownStep o) acc).st.rob = acc.st.rob := by
    intro o l
    induction l with
    | nil => intro acc; rfl
    | cons x xs ih =>
      intro acc
      rw [List.foldl_cons, ih]
      unfold countdownStep
      repeat' (first | split | dsimp only)
      all_goals simp [resolveCheckpoint]
  show (updateFunctionalUnits (dispatchToFunctionalUnits s).state).rob = s.rob
  unfold updateFunctionalUnits
  rw [key]
  rfl

/-- Branch handling at Issue leaves the ROB untouched. -/
theorem issueBranchHandling_rob (s : SimulatorState) (instr : Instruction) :
    (issueBranchHandling s instr).1.rob = s.rob := by
  unfold issueBranchHandling
  repeat' (first | split | dsimp only)
  all_goals rfl

/-- Admission at Issue writes exactly one ROB slot, with `ready = false`. -/
theorem issueAdmit_rob (s : SimulatorState) (instr : Instruction)
    (ri rsi : Nat) :
    ∃ e : ROBEntry, e.ready = false ∧
      (issueAdmit s instr ri rsi).rob = s.rob.set ri e := by
  unfold issueAdmit
  rcases hbh : issueBranchHandling s instr with ⟨ns, isSpec, cid⟩
  have hns : ns.rob = s.rob := by
    have := issueBranchHandling_rob s instr
    rw [hbh] at this
    exact this
  simp only [hbh]
  rw [hns]
  exact ⟨_, rfl, rfl⟩

/-- Issue writes at most one ROB slot, and writes it non-ready. -/
theorem issue_ready_mono (s : SimulatorState) (i : Nat)
    (h : robReadyAt (issueCycle s).state i = true) : robReadyAt s i = true := by
  unfold issueCycle at h
  repeat' (first | split at h | dsimp only at h)
  all_goals
    first
    | exact h
    | (obtain ⟨e, he, hrob⟩ := issueAdmit_rob s _ _ _
       unfold robReadyAt listReadyAt at h ⊢
       rw [hrob] at h
       exact listReadyAt_set _ _ _ he i h)

/-- The driver's stall/cycle bookkeeping does not touch the ROB. -/
theorem step_rob (s : SimulatorState) :
    (stepCycle s).rob =
      (issueCycle
        (executeCycle (writeBackCycle (commitCycle s))).state).state.rob := by
  unfold stepCycle
  repeat' (first | split | dsimp only)

/-- A duplicate-free list filtered by a predicate true only at `t` has at
most one element. -/
theorem filter_all_eq_bound (p : Nat → Bool) (t : Nat)
    (h : ∀ i, p i = true → i = t) (l : List Nat) (hnd : l.Nodup) :
    (l.filter p).length ≤ 1 := by
  rcases hm : l.filter p with _ | ⟨x, _ | ⟨y, tl⟩⟩
  · simp
  · simp
  · exfalso
    have hnd2 : (l.filter p).Nodup := hnd.filter p
    rw [hm] at hnd2
    have hx : x ∈ l.filter p := by rw [hm]; exact List.mem_cons_self x _
    have hy : y ∈ l.filter p := by
      rw [hm]; exact List.mem_cons_of_mem x (List.mem_cons_self y tl)
    have hxt : x = t := h x (List.mem_filter.mp hx).2
    have hyt : y = t := h y (List.mem_filter.mp hy).2
    rw [List.nodup_cons] at hnd2
    exact hnd2.1 (by rw [hxt, ← hyt]; exact List.mem_cons_self y tl)

/-- Indices of ROB entries whose `ready` flag turned from false to true
between two states. -/
def newlyReady (s sNext : SimulatorState) : List Nat :=
  (List.range sNext.rob.length).filter
    (fun i => robReadyAt sNext i && !robReadyAt s i)

/-- At most one ROB entry becomes ready in one `stepCycle`. -/
theorem at_most_one_new_ready (s : SimulatorState) :
    (newlyReady s (stepCycle s)).length ≤ 1 := by
  obtain ⟨t, ht⟩ := wb_ready_mono (commitCycle s)
  have key : ∀ i, robReadyAt (stepCycle s) i = true →
      robReadyAt s i = true ∨ i = t := by
    intro i hi
    have h1 : robReadyAt
        (issueCycle (executeCycle (writeBackCycle (commitCycle s))).state).state
        i = true := by
      unfold robReadyAt at hi ⊢
      rwa [step_rob] at hi
    have h2 := issue_ready_mono _ i h1
    have h3 : robReadyAt (writeBackCycle (commitCycle s)) i = true := by
      unfold robReadyAt at h2 ⊢
      rwa [exec_rob] at h2
    rcases ht i h3 with h4 | h4
    · exact Or.inl (commit_ready_mono s i h4)
    · exact Or.inr h4
  apply filter_all_eq_bound _ t _ _ (List.nodup_range _)
  intro i hp
  rw [Bool.and_eq_true] at hp
  rcases key i hp.1 with hio | hio
  · rw [hio] at hp
    simp at hp
  · exact hio


/-- Writeback pops exactly the front of the assembled FIFO queue. -/
theorem wb_pending (s : SimulatorState) :
    (writeBackCycle s).pendingBroadcasts = (writeBackQueue s).tail := by
  cases hq : writeBackQueue s with
  | nil => unfold writeBackCycle; rw [hq]; rfl
  | cons bd rest => unfold writeBackCycle; rw [hq]; rfl

/-- Execute leaves the broadcast queue untouched. -/
theorem exec_pending (s : SimulatorState) :
    (executeCycle s).state.pendingBroadcasts = s.pendingBroadcasts := by
  have key : ∀ (o : SimulatorState) (l : List Nat) (acc : CountdownAcc),
      (l.foldl (countdownStep o) acc).st.pendingBroadcasts =
        acc.st.pendingBroadcasts := by
    intro o l
    induction l with
    | nil => intro acc; rfl
    | cons x xs ih =>
      intro acc
      rw [List.foldl_cons, ih]
      unfold countdownStep
      repeat' (first | split | dsimp only)
      all_goals simp [resolveCheckpoint]
  show (updateFunctionalUnits
    (dispatchToFunctionalUnits s).state).pendingBroadcasts =
    s.pendingBroadcasts
  unfold updateFunctionalUnits
  rw [key]
  rfl

/-- Branch handling at Issue leaves the broadcast queue untouched. -/
theorem issueBranchHandling_pending (s : SimulatorState)
    (instr : Instruction) :
    (issueBranchHandling s instr).1.pendingBroadcasts =
      s.pendingBroadcasts := by
  unfold issueBranchHandling
  repeat' (first | split | dsimp only)
  all_goals rfl

/-- Admission at Issue leaves the broadcast queue untouched. -/
theorem issueAdmit_pending (s : SimulatorState) (instr : Instruction)
    (ri rsi : Nat) :
    (issueAdmit s instr ri rsi).pendingBroadcasts = s.pendingBroadcasts := by
  unfold issueAdmit
  rcases hbh : issueBranchHandling s instr with ⟨ns, isSpec, cid⟩
  have hns : ns.pendingBroadcasts = s.pendingBroadcasts := by
    have := issueBranchHandling_pending s instr
    rw [hbh] at this
    exact this
  simp only [hbh]
  exact hns

/-- Issue leaves the broadcast queue untouched. -/
theorem issue_pending (s : SimulatorState) :
    (issueCycle s).state.pendingBroadcasts = s.pendingBroadcasts := by
  unfold issueCycle
  repeat' (first | split | dsimp only)
  all_goals first
    | rfl
    | exact issueAdmit_pending s _ _ _

/-- The driver's bookkeeping leaves the broadcast queue untouched. -/
theorem step_pending (s : SimulatorState) :
    (stepCycle s).pendingBroadcasts =
      (issueCycle
        (executeCycle (writeBackCycle (commitCycle s))).state).state.pendingBroadcasts := by
  unfold stepCycle
  repeat' (first | split | dsimp only)

/-- Across one whole `stepCycle`, the queue left behind is the tail of the
FIFO queue assembled at Writeback: exactly one entry is popped per cycle,
oldest first. -/
theorem step_pop_fifo (s : SimulatorState) :
    (stepCycle s).pendingBroadcasts =
      (writeBackQueue (commitCycle s)).tail := by
  rw [step_pending, issue_pending, exec_pending, wb_pending]


/-- C3: a single `stepCycle` (the public `advance`) changes the `ready` flag
of at most one ROB entry from false to true, and the pending-broadcast queue
left behind is the tail of the FIFO queue assembled at Writeback — queued
results are broadcast one per cycle, oldest first. -/
theorem at_most_one_broadcast_per_cycle (s : SimulatorState) :
    (newlyReady s (stepCycle s)).length ≤ 1 ∧
    (stepCycle s).pendingBroadcasts =
      (writeBackQueue (commitCycle s)).tail :=
  ⟨at_most_one_new_ready s, step_pop_fifo s⟩

end Tomasulo
